import Mathlib

/-!
# Geek Text API: database access layer and server bootstrap

A shallow embedding of `src/utils/database.js` and of the parts of `src/app.js`
that talk to it (`testDatabaseConnection`, `startServer`, the global error
handler), followed by the properties proved about them.

The `mysql2` driver, the `express` application object and the console are
outside the repository. The driver is a parameter (`Driver`): a record of
state transformers, one per driver method the code calls, each of which
settles with a value or with an error. Every call that leaves the module is
appended to a trace (`Event`), so that "which driver calls were made, with
which arguments, in which order" is an observable of the model.
-/

namespace GeekText

/-! ## JavaScript values, errors and the process environment -/

/-- The primitive JavaScript values the modelled code handles. -/
inductive JsValue where
  | undefined : JsValue
  | null : JsValue
  | bool (b : Bool) : JsValue
  | num (n : Int) : JsValue
  | str (s : String) : JsValue
  deriving DecidableEq, Repr

/-- JavaScript truthiness (`ToBoolean`) on the modelled values. -/
def JsValue.truthy : JsValue → Bool
  | .undefined => false
  | .null => false
  | .bool b => b
  | .num n => n != 0
  | .str s => s != ""

/-- The `a || b` operator: `a` when it is truthy, otherwise `b`. -/
def jsOr (a b : JsValue) : JsValue :=
  if a.truthy then a else b

/-- The object `process.env`: a variable is either unset or holds a string. -/
abbrev Env := String → Option String

/-- The property read `process.env.NAME`. -/
def Env.get (env : Env) (name : String) : JsValue :=
  match env name with
  | some v => .str v
  | none => .undefined

/-- An error object: its `name`, its `message`, its further own properties
(such as `code` or `sql`) and, when it wraps another error, its `cause`. -/
inductive JsError where
  | mk (name : String) (message : String) (props : List (String × JsValue))
      (cause : Option JsError) : JsError

/-- The `name` property of an error. -/
def JsError.name : JsError → String
  | .mk n _ _ _ => n

/-- The `message` property of an error. -/
def JsError.message : JsError → String
  | .mk _ m _ _ => m

/-- The own properties of an error other than `name`, `message`, `cause`. -/
def JsError.props : JsError → List (String × JsValue)
  | .mk _ _ p _ => p

/-- The `cause` property of an error. -/
def JsError.cause : JsError → Option JsError
  | .mk _ _ _ c => c

/-! ## The driver and the trace of calls -/

/-- A pooled connection, identified by its thread id. -/
abbrev Conn := Nat

/-- One result row: column name and value. -/
abbrev Row := List (String × JsValue)

/-- The first component of what `execute` resolves to. -/
abbrev Rows := List Row

/-- The second component of what `execute` resolves to (column metadata). -/
abbrev Fields := List String

/-- The methods of a pooled connection. -/
inductive ConnOp where
  | ping : ConnOp
  | release : ConnOp
  | beginTransaction : ConnOp
  | commit : ConnOp
  | rollback : ConnOp
  | query (sql : String) (params : List JsValue) : ConnOp
  deriving DecidableEq, Repr

/-- Everything the modelled code does to the outside world. -/
inductive Event where
  | poolExecute (sql : String) (params : List JsValue) : Event
  | poolGetConnection : Event
  | poolEnd : Event
  | conn (c : Conn) (op : ConnOp) : Event
  | consoleError (args : List String) : Event
  | consoleLog (args : List String) : Event
  | appListen (port : JsValue) : Event
  deriving DecidableEq, Repr

/-- The `mysql2/promise` pool as the code sees it. `σ` is the driver's own
state (server, sockets, free list); each method settles with a value or an
error and moves the state. -/
structure Driver (σ : Type) where
  /-- Method `pool.execute(sql, params)`, resolving to `[results, fields]`. -/
  execute : String → List JsValue → σ → Except JsError (Rows × Fields) × σ
  /-- Method `pool.getConnection()`. -/
  getConnection : σ → Except JsError Conn × σ
  /-- Method `pool.end()`. -/
  poolEnd : σ → Except JsError Unit × σ
  /-- A method of a pooled connection: `connection.ping()`,
  `connection.release()`, `connection.beginTransaction()`, ... -/
  conn : Conn → ConnOp → σ → Except JsError Unit × σ

/-- The state threaded through the modelled code: the driver's state and the
trace of outside calls made so far. -/
structure World (σ : Type) where
  drv : σ
  trace : List Event

/-- Append one event to the trace. -/
def World.emit {σ : Type} (w : World σ) (e : Event) : World σ :=
  { w with trace := w.trace ++ [e] }

/-- The call `pool.execute(sql, params)`. -/
def callExecute {σ : Type} (d : Driver σ) (sql : String) (params : List JsValue)
    (w : World σ) : Except JsError (Rows × Fields) × World σ :=
  let r := d.execute sql params w.drv
  (r.1, { drv := r.2, trace := w.trace ++ [Event.poolExecute sql params] })

/-- The call `pool.getConnection()`. -/
def callGetConnection {σ : Type} (d : Driver σ) (w : World σ) :
    Except JsError Conn × World σ :=
  let r := d.getConnection w.drv
  (r.1, { drv := r.2, trace := w.trace ++ [Event.poolGetConnection] })

/-- The call `pool.end()`. -/
def callEnd {σ : Type} (d : Driver σ) (w : World σ) : Except JsError Unit × World σ :=
  let r := d.poolEnd w.drv
  (r.1, { drv := r.2, trace := w.trace ++ [Event.poolEnd] })

/-- A method call `connection.op(...)` on a pooled connection. -/
def callConn {σ : Type} (d : Driver σ) (c : Conn) (op : ConnOp) (w : World σ) :
    Except JsError Unit × World σ :=
  let r := d.conn c op w.drv
  (r.1, { drv := r.2, trace := w.trace ++ [Event.conn c op] })

/-! ## `src/utils/database.js` -/

/-- The object literal passed to `mysql.createPool`. -/
structure PoolConfig where
  host : JsValue
  port : JsValue
  user : JsValue
  password : JsValue
  database : JsValue
  waitForConnections : Bool
  connectionLimit : Nat
  queueLimit : Nat
  enableKeepAlive : Bool
  keepAliveInitialDelay : Nat
  deriving DecidableEq, Repr

/-- The configuration of `pool` (database.js, lines 13-24), read from
`process.env` after `dotenv` has loaded. -/
def poolConfig (env : Env) : PoolConfig :=
  { host := jsOr (env.get "DB_HOST") (.str "localhost")
    port := jsOr (env.get "DB_PORT") (.num 3306)
    user := jsOr (env.get "DB_USER") (.str "root")
    password := jsOr (env.get "DB_PASSWORD") (.str "")
    database := jsOr (env.get "DB_NAME") (.str "geektext")
    waitForConnections := true
    connectionLimit := 10
    queueLimit := 0
    enableKeepAlive := true
    keepAliveInitialDelay := 0 }

/-- The function `query(sql, params = [])` (database.js, lines 36-45). `params`
is `none` when the argument is omitted, and the default `[]` applies. -/
def query {σ : Type} (d : Driver σ) (sql : String) (params : Option (List JsValue))
    (w : World σ) : Except JsError Rows × World σ :=
  match callExecute d sql (params.getD []) w with
  | (.ok res, w1) => (.ok res.1, w1)
  | (.error error, w1) =>
    let w2 := w1.emit (Event.consoleError ["Database query error:", error.message])
    let w3 := w2.emit (Event.consoleError ["SQL:", sql])
    (.error error, w3)

/-- The function `getConnection()` (database.js, lines 66-68). -/
def getConnection {σ : Type} (d : Driver σ) (w : World σ) :
    Except JsError Conn × World σ :=
  callGetConnection d w

/-- The function `end()` (database.js, lines 74-77); named `endPool` because
`end` is reserved. -/
def endPool {σ : Type} (d : Driver σ) (w : World σ) : Except JsError Unit × World σ :=
  match callEnd d w with
  | (.ok _, w1) => (.ok (), w1.emit (Event.consoleLog ["Database pool closed"]))
  | (.error e, w1) => (.error e, w1)

/-- The function `testConnection()` (database.js, lines 83-92): the three
calls sit in one `try` block whose `catch` returns `false`. -/
def testConnection {σ : Type} (d : Driver σ) (w : World σ) :
    Except JsError Bool × World σ :=
  match callGetConnection d w with
  | (.error _, w1) => (.ok false, w1)
  | (.ok connection, w1) =>
    match callConn d connection ConnOp.ping w1 with
    | (.error _, w2) => (.ok false, w2)
    | (.ok _, w2) =>
      match callConn d connection ConnOp.release w2 with
      | (.error _, w3) => (.ok false, w3)
      | (.ok _, w3) => (.ok true, w3)

/-! ## `src/app.js` -/

/-- The constant `PORT = process.env.PORT || 5000` (app.js, line 21). -/
def PORT (env : Env) : JsValue :=
  jsOr (env.get "PORT") (.num 5000)

/-- The function `testDatabaseConnection` (app.js, lines 200-212). It calls the
database module's `getConnection()` and then `release()` on the connection;
both sit in one `try` block whose `catch` logs and returns `false`. Loading
the database module is taken to succeed. -/
def testDatabaseConnection {σ : Type} (d : Driver σ) (w : World σ) :
    Except JsError Bool × World σ :=
  match getConnection d w with
  | (.error error, w1) =>
    let w2 := w1.emit (Event.consoleError ["✗ Database connection failed:", error.message])
    let w3 := w2.emit
      (Event.consoleError ["  Make sure MySQL is running and credentials in .env are correct"])
    (.ok false, w3)
  | (.ok connection, w1) =>
    let w2 := w1.emit (Event.consoleLog ["✓ Database connected successfully"])
    match callConn d connection ConnOp.release w2 with
    | (.error error, w3) =>
      let w4 := w3.emit (Event.consoleError ["✗ Database connection failed:", error.message])
      let w5 := w4.emit
        (Event.consoleError ["  Make sure MySQL is running and credentials in .env are correct"])
      (.ok false, w5)
    | (.ok _, w3) => (.ok true, w3)

/-- The function `startServer` (app.js, lines 218-241), up to and including the
call `app.listen(PORT, ...)`; the banner is printed later by the callback. -/
def startServer {σ : Type} (env : Env) (d : Driver σ) (w : World σ) :
    Except JsError Unit × World σ :=
  match testDatabaseConnection d w with
  | (.error e, w1) => (.error e, w1)
  | (.ok dbConnected, w1) =>
    let w2 :=
      if !dbConnected then
        (w1.emit (Event.consoleError ["\n⚠️  Server starting without database connection"])).emit
          (Event.consoleError ["   Fix database connection to use API features\n"])
      else w1
    (.ok (), w2.emit (Event.appListen (PORT env)))

/-- The properties of `err` the global error handler reads. -/
structure ErrObj where
  status : JsValue
  name : JsValue
  message : JsValue
  stack : JsValue
  deriving DecidableEq, Repr

/-- An object literal: its properties in insertion order. -/
abbrev JsObject := List (String × JsValue)

/-- What the global error handler sends. -/
structure Response where
  status : JsValue
  body : JsObject
  deriving DecidableEq, Repr

/-- The operand of the spread `...(process.env.NODE_ENV === 'development' &&
{ stack: err.stack })`: the properties it contributes (none when the left
operand is `false`). -/
def stackSpread (env : Env) (err : ErrObj) : JsObject :=
  if env.get "NODE_ENV" = JsValue.str "development" then [("stack", err.stack)] else []

/-- The global error handler (app.js, lines 183-193): the status and the object
given to `res.status(...).json(...)`. The `console.error` line before it does
not touch the response. -/
def errorHandler (env : Env) (err : ErrObj) : Response :=
  { status := jsOr err.status (.num 500)
    body :=
      [("error", jsOr err.name (.str "Internal Server Error")),
       ("message", jsOr err.message (.str "An unexpected error occurred"))]
        ++ stackSpread env err }

/-- What `JSON.stringify` keeps of an object of primitives: the properties
whose value is not `undefined`. -/
def jsonFields (o : JsObject) : JsObject :=
  o.filter (fun kv => kv.2 != JsValue.undefined)

/-- The property names of the JSON body of the error response. -/
def errorBodyKeys (env : Env) (err : ErrObj) : List String :=
  (jsonFields (errorHandler env err).body).map Prod.fst

/-! ## Callers of a connection handle -/

/-- A caller that makes the method calls `ops`, in order, on the handle
`connection`, going on whatever each call returns. The handle returned by
`getConnection` is the driver's connection object itself, so each call is a
driver call. -/
def callConnSeq {σ : Type} (d : Driver σ) (connection : Conn) :
    List ConnOp → World σ → World σ
  | [], w => w
  | op :: rest, w => callConnSeq d connection rest (callConn d connection op w).2

/-- The method calls that reached connection `c`, in order. -/
def connOpsOf (c : Conn) (trace : List Event) : List ConnOp :=
  trace.filterMap (fun e =>
    match e with
    | Event.conn c1 op => if c1 = c then some op else none
    | _ => none)

/-- The calls in a trace that went to the driver (console output and
`app.listen` left out). -/
def driverCalls (trace : List Event) : List Event :=
  trace.filter (fun e =>
    match e with
    | Event.consoleError _ => false
    | Event.consoleLog _ => false
    | Event.appListen _ => false
    | _ => true)

/-- The number of `pool.execute` calls in a trace. -/
def executeCount (trace : List Event) : Nat :=
  (trace.filter (fun e =>
    match e with
    | Event.poolExecute _ _ => true
    | _ => false)).length

/-- The number of `release()` calls on connection `c` in a trace. -/
def releaseCount (c : Conn) (trace : List Event) : Nat :=
  ((connOpsOf c trace).filter (fun op => op = ConnOp.release)).length

/-! ## The specification's wording, for comparison with the code -/

/-- The specification's error of kind `QueryError` for a driver error `e` and a
statement `sql`: named `QueryError`, with `e` as its cause and the statement
text among its properties. -/
def IsQueryErrorFor (x e : JsError) (sql : String) : Prop :=
  x.name = "QueryError" ∧ x.cause = some e ∧ ("sql", JsValue.str sql) ∈ x.props

/-- The specification's error of kind `AcquisitionError`. -/
def IsAcquisitionError (x : JsError) : Prop :=
  x.name = "AcquisitionError"

/-- The specification's rule for a handle, read on the calls that reach the
connection: no `release` arrives while a transaction that was begun is still
open (neither committed nor rolled back). `inTx` tells whether a transaction
is open at the start. -/
def rollbackBeforeRelease (inTx : Bool) : List ConnOp → Bool
  | [] => true
  | ConnOp.beginTransaction :: rest => rollbackBeforeRelease true rest
  | ConnOp.commit :: rest => rollbackBeforeRelease false rest
  | ConnOp.rollback :: rest => rollbackBeforeRelease false rest
  | ConnOp.release :: rest => !inTx && rollbackBeforeRelease false rest
  | _ :: rest => rollbackBeforeRelease inTx rest

/-- The specification's rule for a connection parameter: the environment
variable when it is set to a non-empty value, otherwise the default. -/
def FromEnvOrDefault (env : Env) (name : String) (dflt value : JsValue) : Prop :=
  (∀ v, env name = some v → v ≠ "" → value = JsValue.str v) ∧
  ((env name = none ∨ env name = some "") → value = dflt)

/-! ## Concrete drivers and inputs -/

/-- The error `mysql2` raises when a connection drops. -/
def connectionLost : JsError :=
  JsError.mk "Error" "Connection lost: The server closed the connection."
    [("code", JsValue.str "PROTOCOL_CONNECTION_LOST")] none

/-- The error `mysql2` raises on a closed pool. -/
def poolClosed : JsError :=
  JsError.mk "Error" "Pool is closed." [] none

/-- The error `mysql2` raises for a statement the server cannot parse. -/
def parseError : JsError :=
  JsError.mk "Error" "You have an error in your SQL syntax"
    [("code", JsValue.str "ER_PARSE_ERROR"), ("errno", JsValue.num 1064)] none

/-- A pool whose state is the number of connections currently leased. Every
`getConnection` leases one more, `release` returns one, `execute` answers one
row, and `ping` fails with `pingError` when one is given. -/
def leasingDriver (pingError : Option JsError) : Driver Nat :=
  { execute := fun _ _ s => (.ok ([[("id", JsValue.num 1)]], ["id"]), s)
    getConnection := fun s => (.ok (s + 1), s + 1)
    poolEnd := fun s => (.ok (), s)
    conn := fun _ op s =>
      match op with
      | ConnOp.release => (.ok (), s - 1)
      | ConnOp.ping =>
        match pingError with
        | some e => (.error e, s)
        | none => (.ok (), s)
      | _ => (.ok (), s) }

/-- A pool after `end()`: every call is rejected with `poolClosed`. -/
def closedDriver : Driver Unit :=
  { execute := fun _ _ s => (.error poolClosed, s)
    getConnection := fun s => (.error poolClosed, s)
    poolEnd := fun s => (.error poolClosed, s)
    conn := fun _ _ s => (.error poolClosed, s) }

/-- A pool whose server rejects every statement with `parseError`. -/
def rejectingDriver : Driver Unit :=
  { execute := fun _ _ s => (.error parseError, s)
    getConnection := fun s => (.ok 1, s)
    poolEnd := fun s => (.ok (), s)
    conn := fun _ _ s => (.ok (), s) }

/-- The environment with no variable set. -/
def emptyEnv : Env := fun _ => none

/-- An environment of a production deployment. -/
def prodEnv : Env := fun name =>
  if name = "NODE_ENV" then some "production"
  else if name = "DB_HOST" then some "db.internal"
  else if name = "DB_PORT" then some "3307"
  else if name = "DB_PASSWORD" then some ""
  else none

/-- An environment of a development machine. -/
def devEnv : Env := fun name =>
  if name = "NODE_ENV" then some "development" else none

/-- The initial world over a driver state: nothing called yet. -/
def World.init {σ : Type} (s : σ) : World σ :=
  { drv := s, trace := [] }


/-! # Properties

## Lemmas on the trace observables -/

theorem executeCount_append (t1 t2 : List Event) :
    executeCount (t1 ++ t2) = executeCount t1 + executeCount t2 := by
  simp [executeCount, List.filter_append]

theorem driverCalls_append (t1 t2 : List Event) :
    driverCalls (t1 ++ t2) = driverCalls t1 ++ driverCalls t2 := by
  simp [driverCalls, List.filter_append]

theorem connOpsOf_append (c : Conn) (t1 t2 : List Event) :
    connOpsOf c (t1 ++ t2) = connOpsOf c t1 ++ connOpsOf c t2 := by
  simp [connOpsOf, List.filterMap_append]

/-- What `query` does in full, by the outcome of the one driver call. -/
theorem query_eq {σ : Type} (d : Driver σ) (sql : String) (params : Option (List JsValue))
    (w : World σ) :
    query d sql params w =
      match d.execute sql (params.getD []) w.drv with
      | (.ok res, s) =>
        (.ok res.1, { drv := s, trace := w.trace ++ [Event.poolExecute sql (params.getD [])] })
      | (.error e, s) =>
        (.error e,
          { drv := s
            trace := w.trace ++ [Event.poolExecute sql (params.getD [])]
              ++ [Event.consoleError ["Database query error:", e.message]]
              ++ [Event.consoleError ["SQL:", sql]] }) := by
  unfold query callExecute
  rcases h : d.execute sql (params.getD []) w.drv with ⟨r | r, s⟩ <;> simp [World.emit]

/-! ## Claims about `query` -/

/-- C4: when `pool.execute(sql, params)` resolves to `[results, fields]`,
`query(sql, params)` resolves to exactly `results`, and the one call the
driver received is `execute` with `sql` and `params` as given, as two
separate arguments. -/
theorem query_returns_results {σ : Type} (d : Driver σ) (sql : String)
    (params : List JsValue) (w : World σ) (results : Rows) (fields : Fields) (s : σ)
    (h : d.execute sql params w.drv = (.ok (results, fields), s)) :
    (query d sql (some params) w).1 = .ok results ∧
      (query d sql (some params) w).2.drv = s ∧
      (query d sql (some params) w).2.trace = w.trace ++ [Event.poolExecute sql params] := by
  rw [query_eq]
  simp [h]

/-- C4, at a concrete input: the statement and its parameters reach the driver
unchanged and the rows come back. -/
theorem query_returns_results_witness :
    (query (leasingDriver none) "SELECT * FROM books WHERE genre = ?"
        (some [JsValue.str "Fiction"]) (World.init 0)).1 = .ok [[("id", JsValue.num 1)]] ∧
      (query (leasingDriver none) "SELECT * FROM books WHERE genre = ?"
        (some [JsValue.str "Fiction"]) (World.init 0)).2.drv = 0 ∧
      (query (leasingDriver none) "SELECT * FROM books WHERE genre = ?"
        (some [JsValue.str "Fiction"]) (World.init 0)).2.trace =
        (World.init 0).trace ++
          [Event.poolExecute "SELECT * FROM books WHERE genre = ?" [JsValue.str "Fiction"]] :=
  query_returns_results (leasingDriver none) "SELECT * FROM books WHERE genre = ?"
    [JsValue.str "Fiction"] (World.init 0) [[("id", JsValue.num 1)]] ["id"] 0 rfl

/-- C7: every call of `query` makes exactly one `pool.execute` call, whether
that call succeeds or fails, and no other driver call. -/
theorem query_executes_once {σ : Type} (d : Driver σ) (sql : String)
    (params : Option (List JsValue)) (w : World σ) :
    executeCount (query d sql params w).2.trace = executeCount w.trace + 1 ∧
      driverCalls (query d sql params w).2.trace =
        driverCalls w.trace ++ [Event.poolExecute sql (params.getD [])] := by
  rw [query_eq]
  rcases h : d.execute sql (params.getD []) w.drv with ⟨r | r, s⟩ <;>
    simp [executeCount_append, driverCalls_append] <;> simp [executeCount, driverCalls]

/-- C3, as stated, fails: the server rejects the statement with `parseError`,
and what `query` throws is not a `QueryError` wrapping it. -/
theorem query_error_not_wrapped :
    (rejectingDriver.execute "SELEC 1" [] ()).1 = .error parseError ∧
      ¬ ∃ x, (query rejectingDriver "SELEC 1" (some []) (World.init ())).1 = .error x ∧
        IsQueryErrorFor x parseError "SELEC 1" := by
  refine ⟨rfl, ?_⟩
  rintro ⟨x, hx, hname, -, -⟩
  have h : (query rejectingDriver "SELEC 1" (some []) (World.init ())).1 = .error parseError :=
    rfl
  rw [h] at hx
  injection hx with hx
  subst hx
  simp [parseError, JsError.name] at hname

/-- C3, amended: when `pool.execute(sql, params)` fails with `e`, `query` fails
with `e` itself, unchanged, after one driver call; the statement text is
written to the error log, after the error's message. -/
theorem query_rethrows_and_logs {σ : Type} (d : Driver σ) (sql : String)
    (params : Option (List JsValue)) (w : World σ) (e : JsError) (s : σ)
    (h : d.execute sql (params.getD []) w.drv = (.error e, s)) :
    (query d sql params w).1 = .error e ∧
      (query d sql params w).2.drv = s ∧
      (query d sql params w).2.trace =
        w.trace ++ [Event.poolExecute sql (params.getD []),
          Event.consoleError ["Database query error:", e.message],
          Event.consoleError ["SQL:", sql]] := by
  rw [query_eq]
  simp [h]

/-- C3, amended, at a concrete input. -/
theorem query_rethrows_and_logs_witness :
    (query rejectingDriver "SELEC 1" none (World.init ())).1 = .error parseError ∧
      (query rejectingDriver "SELEC 1" none (World.init ())).2.drv = () ∧
      (query rejectingDriver "SELEC 1" none (World.init ())).2.trace =
        (World.init ()).trace ++
          [Event.poolExecute "SELEC 1" ((none : Option (List JsValue)).getD []),
          Event.consoleError ["Database query error:", parseError.message],
          Event.consoleError ["SQL:", "SELEC 1"]] :=
  query_rethrows_and_logs rejectingDriver "SELEC 1" none (World.init ()) parseError () rfl


/-! ## Claims about `getConnection` and the handle it returns -/

/-- What `getConnection` does in full: the driver's answer, passed on. -/
theorem getConnection_eq {σ : Type} (d : Driver σ) (w : World σ) :
    getConnection d w =
      ((d.getConnection w.drv).1,
        { drv := (d.getConnection w.drv).2, trace := w.trace ++ [Event.poolGetConnection] }) :=
  rfl

/-- The calls a caller makes on a handle are the calls the driver sees. -/
theorem callConnSeq_trace {σ : Type} (d : Driver σ) (c : Conn) (ops : List ConnOp)
    (w : World σ) :
    (callConnSeq d c ops w).trace = w.trace ++ ops.map (Event.conn c) := by
  induction ops generalizing w with
  | nil => simp [callConnSeq]
  | cons op rest ih => simp [callConnSeq, ih, callConn]

theorem connOpsOf_map_conn (c : Conn) (ops : List ConnOp) :
    connOpsOf c (ops.map (Event.conn c)) = ops := by
  induction ops with
  | nil => rfl
  | cons op rest ih =>
    simp only [connOpsOf, List.map_cons, List.filterMap_cons] at ih ⊢
    simp [ih]

/-- C6, as stated, fails: on a closed pool `getConnection` fails, and the error
is not of kind `AcquisitionError`. -/
theorem getConnection_error_not_acquisition :
    (getConnection closedDriver (World.init ())).1 = .error poolClosed ∧
      ¬ ∃ x, (getConnection closedDriver (World.init ())).1 = .error x ∧
        IsAcquisitionError x := by
  refine ⟨rfl, ?_⟩
  rintro ⟨x, hx, hname⟩
  have h : (getConnection closedDriver (World.init ())).1 = .error poolClosed := rfl
  rw [h] at hx
  injection hx with hx
  subst hx
  simp [IsAcquisitionError, poolClosed, JsError.name] at hname

/-- C6, amended: when `pool.getConnection()` fails with `e`, `getConnection`
fails with `e` itself, unchanged, after that one driver call. -/
theorem getConnection_propagates_error {σ : Type} (d : Driver σ) (w : World σ)
    (e : JsError) (s : σ) (h : d.getConnection w.drv = (.error e, s)) :
    (getConnection d w).1 = .error e ∧
      (getConnection d w).2.drv = s ∧
      (getConnection d w).2.trace = w.trace ++ [Event.poolGetConnection] := by
  rw [getConnection_eq]
  simp [h]

/-- C6, amended, at a concrete input: the closed pool's own error comes out. -/
theorem getConnection_propagates_error_witness :
    (getConnection closedDriver (World.init ())).1 = .error poolClosed ∧
      (getConnection closedDriver (World.init ())).2.drv = () ∧
      (getConnection closedDriver (World.init ())).2.trace =
        (World.init ()).trace ++ [Event.poolGetConnection] :=
  getConnection_propagates_error closedDriver (World.init ()) poolClosed () rfl

/-- C2, as stated, fails: a caller takes a handle, begins a transaction, runs a
statement and releases; the connection receives exactly these three calls, so
the release arrives with the transaction open and no rollback before it. -/
theorem release_without_rollback :
    (getConnection (leasingDriver none) (World.init 0)).1 = .ok 1 ∧
      connOpsOf 1
        (callConnSeq (leasingDriver none) 1
          [ConnOp.beginTransaction, ConnOp.query "INSERT INTO books (title) VALUES (?)"
            [JsValue.str "A"], ConnOp.release]
          (getConnection (leasingDriver none) (World.init 0)).2).trace =
        [ConnOp.beginTransaction, ConnOp.query "INSERT INTO books (title) VALUES (?)"
          [JsValue.str "A"], ConnOp.release] ∧
      rollbackBeforeRelease false
        (connOpsOf 1
          (callConnSeq (leasingDriver none) 1
            [ConnOp.beginTransaction, ConnOp.query "INSERT INTO books (title) VALUES (?)"
              [JsValue.str "A"], ConnOp.release]
            (getConnection (leasingDriver none) (World.init 0)).2).trace) = false := by
  refine ⟨rfl, ?_, ?_⟩ <;>
    simp [callConnSeq_trace, connOpsOf_append, connOpsOf_map_conn, getConnection_eq,
      World.init, connOpsOf, rollbackBeforeRelease]

/-- C2, amended: `getConnection` hands out what `pool.getConnection()` gives,
unwrapped, and the calls that reach a connection are exactly the calls the
caller makes on the handle, in order: the module adds none, so a rollback
happens on release only when the caller calls `rollback`. -/
theorem handle_is_driver_connection {σ : Type} (d : Driver σ) (w : World σ) (c : Conn)
    (ops : List ConnOp) :
    (getConnection d w).1 = (d.getConnection w.drv).1 ∧
      (getConnection d w).2.drv = (d.getConnection w.drv).2 ∧
      connOpsOf c (getConnection d w).2.trace = connOpsOf c w.trace ∧
      connOpsOf c (callConnSeq d c ops (getConnection d w).2).trace =
        connOpsOf c w.trace ++ ops ∧
      (ConnOp.rollback ∈ connOpsOf c (callConnSeq d c ops (getConnection d w).2).trace ↔
        ConnOp.rollback ∈ connOpsOf c w.trace ∨ ConnOp.rollback ∈ ops) := by
  have h1 : connOpsOf c (getConnection d w).2.trace = connOpsOf c w.trace := by
    simp [getConnection_eq, connOpsOf_append, connOpsOf]
  have h2 : connOpsOf c (callConnSeq d c ops (getConnection d w).2).trace =
      connOpsOf c w.trace ++ ops := by
    rw [callConnSeq_trace, connOpsOf_append, connOpsOf_map_conn, h1]
  refine ⟨rfl, rfl, h1, h2, ?_⟩
  rw [h2, List.mem_append]


/-! ## Claims about `testConnection` -/

/-- What `testConnection` does in full, by the outcome of each driver call. -/
theorem testConnection_eq {σ : Type} (d : Driver σ) (w : World σ) :
    testConnection d w =
      match d.getConnection w.drv with
      | (.error _, s1) => (.ok false, { drv := s1, trace := w.trace ++ [Event.poolGetConnection] })
      | (.ok c, s1) =>
        match d.conn c ConnOp.ping s1 with
        | (.error _, s2) =>
          (.ok false,
            { drv := s2
              trace := w.trace ++ [Event.poolGetConnection, Event.conn c ConnOp.ping] })
        | (.ok _, s2) =>
          match d.conn c ConnOp.release s2 with
          | (.error _, s3) =>
            (.ok false,
              { drv := s3
                trace := w.trace ++ [Event.poolGetConnection, Event.conn c ConnOp.ping,
                  Event.conn c ConnOp.release] })
          | (.ok _, s3) =>
            (.ok true,
              { drv := s3
                trace := w.trace ++ [Event.poolGetConnection, Event.conn c ConnOp.ping,
                  Event.conn c ConnOp.release] }) := by
  unfold testConnection callGetConnection
  rcases h1 : d.getConnection w.drv with ⟨e1 | c, s1⟩
  · simp
  · simp only [callConn]
    rcases h2 : d.conn c ConnOp.ping s1 with ⟨e2 | u2, s2⟩
    · simp
    · simp only []
      rcases h3 : d.conn c ConnOp.release s2 with ⟨e3 | u3, s3⟩ <;> simp

/-- Whenever the connection is obtained and the ping fails, `testConnection`
returns `false` without any `release()` call on that connection. -/
theorem testConnection_no_release_after_failed_ping {σ : Type} (d : Driver σ) (w : World σ)
    (c : Conn) (s1 s2 : σ) (e : JsError)
    (hget : d.getConnection w.drv = (.ok c, s1))
    (hping : d.conn c ConnOp.ping s1 = (.error e, s2)) :
    (testConnection d w).1 = .ok false ∧
      releaseCount c (testConnection d w).2.trace = releaseCount c w.trace := by
  rw [testConnection_eq]
  simp [hget, hping, releaseCount, connOpsOf_append, connOpsOf]

/-- C1, the failing run: the pool leases connection 1, its `ping()` fails with
`connectionLost`; `testConnection` returns `false` having called `release()`
zero times, and the pool is left with one connection leased. The same pool
with a working ping gets its connection back. -/
theorem testConnection_leaks_when_ping_fails :
    (testConnection (leasingDriver (some connectionLost)) (World.init 0)).1 = .ok false ∧
      (testConnection (leasingDriver (some connectionLost)) (World.init 0)).2.trace =
        [Event.poolGetConnection, Event.conn 1 ConnOp.ping] ∧
      releaseCount 1
        (testConnection (leasingDriver (some connectionLost)) (World.init 0)).2.trace = 0 ∧
      (testConnection (leasingDriver (some connectionLost)) (World.init 0)).2.drv = 1 ∧
      releaseCount 1 (testConnection (leasingDriver none) (World.init 0)).2.trace = 1 ∧
      (testConnection (leasingDriver none) (World.init 0)).2.drv = 0 := by
  refine ⟨rfl, rfl, ?_, rfl, ?_, rfl⟩ <;>
    simp [testConnection_eq, leasingDriver, World.init, releaseCount, connOpsOf]

/-- C5: `testConnection` never fails. For every driver and every state it
resolves to a boolean, and that boolean is `true` exactly when
`pool.getConnection()`, then `ping()` and then `release()` on the connection
obtained all complete without error. -/
theorem testConnection_boolean {σ : Type} (d : Driver σ) (w : World σ) :
    ∃ b : Bool, (testConnection d w).1 = .ok b ∧
      (b = true ↔
        ∃ (c : Conn) (s1 s2 s3 : σ),
          d.getConnection w.drv = (.ok c, s1) ∧
            d.conn c ConnOp.ping s1 = (.ok (), s2) ∧
            d.conn c ConnOp.release s2 = (.ok (), s3)) := by
  rw [testConnection_eq]
  rcases h1 : d.getConnection w.drv with ⟨e1 | c, s1⟩
  · exact ⟨false, rfl, by simp⟩
  · rcases h2 : d.conn c ConnOp.ping s1 with ⟨e2 | u2, s2⟩
    · refine ⟨false, by simp [h2], ?_⟩
      simp only [Bool.false_eq_true, false_iff, not_exists]
      rintro c1 t1 t2 t3 ⟨hc, hp, -⟩
      simp only [Prod.mk.injEq, Except.ok.injEq] at hc
      obtain ⟨rfl, rfl⟩ := hc
      rw [h2] at hp
      simp at hp
    · rcases h3 : d.conn c ConnOp.release s2 with ⟨e3 | u3, s3⟩
      · refine ⟨false, by simp [h2, h3], ?_⟩
        simp only [Bool.false_eq_true, false_iff, not_exists]
        rintro c1 t1 t2 t3 ⟨hc, hp, hr⟩
        simp only [Prod.mk.injEq, Except.ok.injEq] at hc
        obtain ⟨rfl, rfl⟩ := hc
        rw [h2] at hp
        simp only [Prod.mk.injEq, Except.ok.injEq, true_and] at hp
        subst hp
        rw [h3] at hr
        simp at hr
      · refine ⟨true, by simp [h2, h3], ?_⟩
        simp only [true_iff]
        exact ⟨c, s1, s2, s3, rfl, h2, h3⟩

/-! ## Claim about the pool configuration -/

theorem jsOr_env_set (env : Env) (name v : String) (dflt : JsValue)
    (h : env name = some v) (hv : v ≠ "") : jsOr (env.get name) dflt = JsValue.str v := by
  simp [jsOr, Env.get, h, JsValue.truthy, hv]

theorem jsOr_env_unset (env : Env) (name : String) (dflt : JsValue)
    (h : env name = none ∨ env name = some "") : jsOr (env.get name) dflt = dflt := by
  rcases h with h | h <;> simp [jsOr, Env.get, h, JsValue.truthy]

theorem fromEnvOrDefault_jsOr (env : Env) (name : String) (dflt : JsValue) :
    FromEnvOrDefault env name dflt (jsOr (env.get name) dflt) :=
  ⟨fun v h hv => jsOr_env_set env name v dflt h hv, jsOr_env_unset env name dflt⟩

/-- C8: in every environment the pool is configured with `connectionLimit`
10, `queueLimit` 0 and `waitForConnections` true, and each of host, port,
user, password and database is its `DB_*` variable when that is set and not
empty, and otherwise `'localhost'`, `3306`, `'root'`, `''`, `'geektext'`. -/
theorem poolConfig_spec (env : Env) :
    (poolConfig env).connectionLimit = 10 ∧
      (poolConfig env).queueLimit = 0 ∧
      (poolConfig env).waitForConnections = true ∧
      FromEnvOrDefault env "DB_HOST" (JsValue.str "localhost") (poolConfig env).host ∧
      FromEnvOrDefault env "DB_PORT" (JsValue.num 3306) (poolConfig env).port ∧
      FromEnvOrDefault env "DB_USER" (JsValue.str "root") (poolConfig env).user ∧
      FromEnvOrDefault env "DB_PASSWORD" (JsValue.str "") (poolConfig env).password ∧
      FromEnvOrDefault env "DB_NAME" (JsValue.str "geektext") (poolConfig env).database :=
  ⟨rfl, rfl, rfl, fromEnvOrDefault_jsOr env _ _, fromEnvOrDefault_jsOr env _ _,
    fromEnvOrDefault_jsOr env _ _, fromEnvOrDefault_jsOr env _ _,
    fromEnvOrDefault_jsOr env _ _⟩

/-- The configuration in a production environment: a port from the environment
is the string as given, and an empty password variable gives the default. -/
theorem poolConfig_prodEnv : poolConfig prodEnv =
    { host := .str "db.internal", port := .str "3307", user := .str "root", password := .str "",
      database := .str "geektext", waitForConnections := true, connectionLimit := 10,
      queueLimit := 0, enableKeepAlive := true, keepAliveInitialDelay := 0 } := by
  decide


/-! ## Claims about `src/app.js` -/

/-- What `testDatabaseConnection` does in full. -/
theorem testDatabaseConnection_eq {σ : Type} (d : Driver σ) (w : World σ) :
    testDatabaseConnection d w =
      match d.getConnection w.drv with
      | (.error e, s1) =>
        (.ok false,
          { drv := s1
            trace := w.trace ++ [Event.poolGetConnection,
              Event.consoleError ["✗ Database connection failed:", e.message],
              Event.consoleError
                ["  Make sure MySQL is running and credentials in .env are correct"]] })
      | (.ok c, s1) =>
        match d.conn c ConnOp.release s1 with
        | (.error e, s2) =>
          (.ok false,
            { drv := s2
              trace := w.trace ++ [Event.poolGetConnection,
                Event.consoleLog ["✓ Database connected successfully"],
                Event.conn c ConnOp.release,
                Event.consoleError ["✗ Database connection failed:", e.message],
                Event.consoleError
                  ["  Make sure MySQL is running and credentials in .env are correct"]] })
        | (.ok _, s2) =>
          (.ok true,
            { drv := s2
              trace := w.trace ++ [Event.poolGetConnection,
                Event.consoleLog ["✓ Database connected successfully"],
                Event.conn c ConnOp.release] }) := by
  unfold testDatabaseConnection getConnection callGetConnection
  rcases h1 : d.getConnection w.drv with ⟨e1 | c, s1⟩
  · simp [World.emit]
  · simp only [callConn, World.emit]
    rcases h2 : d.conn c ConnOp.release s1 with ⟨e2 | u2, s2⟩ <;> simp

/-- The trace of `startServer` after its check returned `b`: the warning lines
when `b` is false, then the `app.listen` call. It never fails. -/
theorem startServer_trace {σ : Type} (env : Env) (d : Driver σ) (w : World σ) (b : Bool)
    (h : (testDatabaseConnection d w).1 = .ok b) :
    (startServer env d w).1 = .ok () ∧
      (startServer env d w).2.trace =
        (testDatabaseConnection d w).2.trace ++
          (if b then []
            else [Event.consoleError ["\n⚠️  Server starting without database connection"],
              Event.consoleError ["   Fix database connection to use API features\n"]]) ++
          [Event.appListen (PORT env)] := by
  unfold startServer
  rcases h1 : testDatabaseConnection d w with ⟨e | b1, w1⟩
  · rw [h1] at h
    simp at h
  · rw [h1] at h
    simp only [Except.ok.injEq] at h
    subst h
    cases b1 <;> simp [World.emit]

/-- C9, as stated, fails: on a pool whose connections do not answer a ping the
module's `testConnection()` returns `false` after pinging, while `startServer`
makes no ping, reports the database as connected, prints no warning and starts
listening: it neither calls `testConnection()` nor uses its result. -/
theorem startServer_does_not_call_testConnection :
    (testConnection (leasingDriver (some connectionLost)) (World.init 0)).1 = .ok false ∧
      Event.conn 1 ConnOp.ping ∈
        (testConnection (leasingDriver (some connectionLost)) (World.init 0)).2.trace ∧
      (startServer emptyEnv (leasingDriver (some connectionLost)) (World.init 0)).2.trace =
        [Event.poolGetConnection,
          Event.consoleLog ["✓ Database connected successfully"],
          Event.conn 1 ConnOp.release,
          Event.appListen (JsValue.num 5000)] := by
  refine ⟨rfl, ?_, rfl⟩
  simp [testConnection_eq, leasingDriver, World.init]

/-- C9, amended: `startServer` never fails and runs `testDatabaseConnection`
once, before the one `app.listen` call that ends it. That check makes one
`getConnection()` call and, when a connection comes back, one `release()` on
it, and nothing else on the driver (no ping); it returns `true` exactly when
both complete without error, and `startServer` prints its warning exactly when
it returned `false`. -/
theorem startServer_checks_by_getConnection {σ : Type} (env : Env) (d : Driver σ)
    (w : World σ) :
    (startServer env d w).1 = .ok () ∧
      ∃ b : Bool, (testDatabaseConnection d w).1 = .ok b ∧
        (b = true ↔
          ∃ (c : Conn) (s1 s2 : σ),
            d.getConnection w.drv = (.ok c, s1) ∧ d.conn c ConnOp.release s1 = (.ok (), s2)) ∧
        driverCalls (testDatabaseConnection d w).2.trace =
          driverCalls w.trace ++
            (match d.getConnection w.drv with
              | (.ok c, _) => [Event.poolGetConnection, Event.conn c ConnOp.release]
              | (.error _, _) => [Event.poolGetConnection]) ∧
        (startServer env d w).2.trace =
          (testDatabaseConnection d w).2.trace ++
            (if b then []
              else [Event.consoleError ["\n⚠️  Server starting without database connection"],
                Event.consoleError ["   Fix database connection to use API features\n"]]) ++
            [Event.appListen (PORT env)] := by
  have key : ∃ b : Bool, (testDatabaseConnection d w).1 = .ok b ∧
      (b = true ↔
        ∃ (c : Conn) (s1 s2 : σ),
          d.getConnection w.drv = (.ok c, s1) ∧ d.conn c ConnOp.release s1 = (.ok (), s2)) ∧
      driverCalls (testDatabaseConnection d w).2.trace =
        driverCalls w.trace ++
          (match d.getConnection w.drv with
            | (.ok c, _) => [Event.poolGetConnection, Event.conn c ConnOp.release]
            | (.error _, _) => [Event.poolGetConnection]) := by
    rw [testDatabaseConnection_eq]
    rcases h1 : d.getConnection w.drv with ⟨e1 | c, s1⟩
    · exact ⟨false, rfl, by simp, by simp [driverCalls_append]; simp [driverCalls]⟩
    · rcases h2 : d.conn c ConnOp.release s1 with ⟨e2 | u2, s2⟩
      · refine ⟨false, by simp [h2], ?_, by simp [h2, driverCalls_append]; simp [driverCalls]⟩
        simp only [Bool.false_eq_true, false_iff, not_exists]
        rintro c1 t1 t2 ⟨hc, hr⟩
        simp only [Prod.mk.injEq, Except.ok.injEq] at hc
        obtain ⟨rfl, rfl⟩ := hc
        rw [h2] at hr
        simp at hr
      · refine ⟨true, by simp [h2], ?_, by simp [h2, driverCalls_append]; simp [driverCalls]⟩
        simp only [true_iff]
        exact ⟨c, s1, s2, rfl, h2⟩
  obtain ⟨b, hb, hiff, hcalls⟩ := key
  obtain ⟨hok, htrace⟩ := startServer_trace env d w b hb
  exact ⟨hok, b, hb, hiff, hcalls, htrace⟩

theorem jsOr_str_ne_undefined (a : JsValue) (s : String) :
    jsOr a (JsValue.str s) ≠ JsValue.undefined := by
  unfold jsOr
  split
  · intro h
    simp_all [JsValue.truthy]
  · simp

/-- C10: for every error and every value of `NODE_ENV`, the JSON body of the
error response has a `stack` field only if `NODE_ENV` is `'development'`, and
for every other value, unset included, its fields are exactly `error` and
`message`. -/
theorem errorBody_stack_only_in_development (env : Env) (err : ErrObj) :
    ("stack" ∈ errorBodyKeys env err → env "NODE_ENV" = some "development") ∧
      (env "NODE_ENV" ≠ some "development" → errorBodyKeys env err = ["error", "message"]) := by
  have hother : env "NODE_ENV" ≠ some "development" →
      errorBodyKeys env err = ["error", "message"] := by
    intro h
    have hs : stackSpread env err = [] := by
      unfold stackSpread Env.get
      cases hv : env "NODE_ENV" with
      | none => simp
      | some v =>
        have : v ≠ "development" := fun hv2 => h (by rw [hv, hv2])
        simp [this]
    simp [errorBodyKeys, errorHandler, hs, jsonFields, List.filter_cons,
      jsOr_str_ne_undefined]
  refine ⟨?_, hother⟩
  intro hmem
  by_contra hne
  rw [hother hne] at hmem
  simp at hmem

/-- C10, at concrete inputs: a production response has no stack, a
development response of the same error has one. -/
theorem errorBody_examples :
    (errorHandler prodEnv
        { status := .undefined, name := .str "TypeError", message := .str "x is not a function",
          stack := .str "TypeError: x is not a function\n    at handler" }) =
      { status := .num 500
        body := [("error", .str "TypeError"), ("message", .str "x is not a function")] } ∧
      errorBodyKeys devEnv
        { status := .num 404, name := .undefined, message := .str "",
          stack := .str "Error\n    at handler" } = ["error", "message", "stack"] := by
  constructor <;> decide

end GeekText
